import Mathlib

/-!
Shallow embedding of the dialect-specific logic of
`src/accera/ir/src/value/ValueDialect.cpp` (Accera value dialect):
the MMA shape-to-descriptor table, the thread offset maps, the operand
sub-tile shapes, the operation verifiers, the constant folders, the
function-like op builders and the reorder (layout permutation) builder.

Machine integers (`int64_t`, `uint8_t`, `unsigned`) are modelled as `Int`
or `Nat`; none of the modelled computations can overflow in the ranges
the code uses them.
-/

namespace AcceraValue

/-! ## MMA shape table (`MMAOp::MMAOp`, lines 457-550) -/

/-- The symbolic MMA tile configurations handled by the `switch` in
`MMAOp::MMAOp` — one constructor per `case` label. -/
inductive MMAShape
  | M64xN64xK1_B4
  | M64xN64xK1_B2
  | M64xN64xK2_B4
  | M64xN64xK2_B2
  | M64xN64xK4_B4
  | M64xN64xK4_B2
  | M32xN32xK2_B1
  | M32xN32xK4_B1
  | M32xN32xK8_B1
  | M16xN16xK4_B1
  | M16xN16xK8_B1
  | M16xN16xK16_B1
  | M32xN8xK16_B1
  | M8xN32xK16_B1
deriving DecidableEq, Fintype, Repr

/-- The descriptor fields `m, n, k, blocks` of `MMAOp` (C++ `int64_t`). -/
structure MMAOp where
  m : Int
  n : Int
  k : Int
  blocks : Int
deriving DecidableEq, Repr

/-- Model of `MMAOp::MMAOp(MMAShape)`: the exhaustive switch assigning
`(m, n, k, blocks)` for each recognized shape (lines 460-549). -/
def MMAOp.ofShape : MMAShape → MMAOp
  | .M64xN64xK1_B4 => ⟨64, 64, 1, 4⟩
  | .M64xN64xK1_B2 => ⟨64, 64, 1, 2⟩
  | .M64xN64xK2_B4 => ⟨64, 64, 2, 4⟩
  | .M64xN64xK2_B2 => ⟨64, 64, 2, 2⟩
  | .M64xN64xK4_B4 => ⟨64, 64, 4, 4⟩
  | .M64xN64xK4_B2 => ⟨64, 64, 4, 2⟩
  | .M32xN32xK2_B1 => ⟨32, 32, 2, 1⟩
  | .M32xN32xK4_B1 => ⟨32, 32, 4, 1⟩
  | .M32xN32xK8_B1 => ⟨32, 32, 8, 1⟩
  | .M16xN16xK4_B1 => ⟨16, 16, 4, 1⟩
  | .M16xN16xK8_B1 => ⟨16, 16, 8, 1⟩
  | .M16xN16xK16_B1 => ⟨16, 16, 16, 1⟩
  | .M32xN8xK16_B1 => ⟨32, 8, 16, 1⟩
  | .M8xN32xK16_B1 => ⟨8, 32, 16, 1⟩

/-- The C++ `switch` raw-value view: an `MMAShape` variable can hold an
out-of-enum integer, in which case the `default:` branch hits
`assert(false && "Invalid MMA shape.")` — modelled as `none`.  Codes
follow the order of the `case` labels. -/
def MMAShape.ofCode : Nat → Option MMAShape
  | 0 => some .M64xN64xK1_B4
  | 1 => some .M64xN64xK1_B2
  | 2 => some .M64xN64xK2_B4
  | 3 => some .M64xN64xK2_B2
  | 4 => some .M64xN64xK4_B4
  | 5 => some .M64xN64xK4_B2
  | 6 => some .M32xN32xK2_B1
  | 7 => some .M32xN32xK4_B1
  | 8 => some .M32xN32xK8_B1
  | 9 => some .M16xN16xK4_B1
  | 10 => some .M16xN16xK8_B1
  | 11 => some .M16xN16xK16_B1
  | 12 => some .M32xN8xK16_B1
  | 13 => some .M8xN32xK16_B1
  | _ => none

/-- Constructing an `MMAOp` from a raw code: the recognized codes yield a
descriptor, anything else is the fatal assertion path (`none`, not a
recoverable error value). -/
def MMAOp.ofCode (c : Nat) : Option MMAOp :=
  (MMAShape.ofCode c).map MMAOp.ofShape

/-- The list of every recognized configuration, in `case`-label order. -/
def allMMAShapes : List MMAShape :=
  [.M64xN64xK1_B4, .M64xN64xK1_B2, .M64xN64xK2_B4, .M64xN64xK2_B2,
   .M64xN64xK4_B4, .M64xN64xK4_B2, .M32xN32xK2_B1, .M32xN32xK4_B1,
   .M32xN32xK8_B1, .M16xN16xK4_B1, .M16xN16xK8_B1, .M16xN16xK16_B1,
   .M32xN8xK16_B1, .M8xN32xK16_B1]

/-! ## Derived queries (`getInElementsPerThread`, `getOperandShape`,
`getOffsetMap`, `getOffsetMapSize`; lines 557-604) -/

/-- Model of `MMAOp::getInElementsPerThread` (line 557). -/
def MMAOp.getInElementsPerThread (op : MMAOp) (warpSize : Int) : Int :=
  op.m * op.k / warpSize

/-- Model of `MMAOp::getOutElementsPerThread` (line 562). -/
def MMAOp.getOutElementsPerThread (op : MMAOp) (warpSize : Int) : Int :=
  op.m * op.n / warpSize

/-- Model of `MMAOp::getNumBlocks` (line 567). -/
def MMAOp.getNumBlocks (op : MMAOp) : Int :=
  op.blocks

/-- The MMA operand role.  The C++ enum is constructed from a raw
attribute integer (`MMAOperandType operand{ op.operandType() }`), so
values outside the three declared constants are representable; the
`unknown` constructor carries such a raw code. -/
inductive MMAOperandType
  | A
  | B
  | Acc
  | unknown (code : Nat)
deriving DecidableEq, Repr

/-- Model of `MMAOp::getOperandShape` (lines 572-585). -/
def MMAOp.getOperandShape (op : MMAOp) : MMAOperandType → List Int
  | .A => [op.m, op.k]
  | .B => [op.k, op.n]
  | .Acc => [op.m, op.n]
  | _ => []

/-- The fixed 32-entry AMD mfma thread-offset table (line 592). -/
def mfmaOffsetTable32 : List Nat :=
  [0, 4, 1, 5, 2, 6, 3, 7, 8, 12, 9, 13, 10, 14, 11, 15,
   16, 20, 17, 21, 18, 22, 19, 23, 24, 28, 25, 29, 26, 30, 27, 31]

/-- The fixed 16-entry AMD mfma thread-offset table (line 594). -/
def mfmaOffsetTable16 : List Nat :=
  [0, 4, 8, 12, 1, 5, 9, 13, 2, 6, 10, 14, 3, 7, 11, 15]

/-- Model of `MMAOp::getOffsetMap` (lines 587-595); `std::vector<uint8_t>`
entries modelled as `Nat` (all values are below 32). -/
def MMAOp.getOffsetMap (op : MMAOp) : List Nat :=
  if op.getNumBlocks = 2 ∨ op.m = 32 then
    mfmaOffsetTable32
  else
    mfmaOffsetTable16

/-- Model of `MMAOp::getOffsetMapSize` (lines 597-604): `std::array<int64_t, 2>`
as a pair (rows, cols). -/
def MMAOp.getOffsetMapSize (op : MMAOp) : Int × Int :=
  if op.getNumBlocks = 2 ∨ op.m = 32 then
    (16, 2)
  else
    (4, 4)

/-! ## Types, attributes and fold results

A minimal model of the MLIR types and attributes these operations touch.
Signed and unsigned (non-signless) integers, vectors, memrefs, etc. fall
under `otherType`. -/

/-- MLIR types as used by the fold and verification logic: `int w` is a
signless integer type, `index` the index type, `float w` a float type,
and `otherType` any other type. -/
inductive MLIRType
  | int (width : Nat)
  | index
  | float (width : Nat)
  | otherType (id : Nat)
deriving DecidableEq, Repr

/-- Model of `mlir::Type::isSignlessIntOrIndex`. -/
def MLIRType.isSignlessIntOrIndex : MLIRType → Bool
  | .int _ => true
  | .index => true
  | _ => false

/-- Model of `mlir::Type::isSignlessIntOrIndexOrFloat`. -/
def MLIRType.isSignlessIntOrIndexOrFloat : MLIRType → Bool
  | .int _ => true
  | .index => true
  | .float _ => true
  | _ => false

/-- MLIR attributes as used by the folders.  `FloatAttr.get(ty, v)` is
created here only from an integer `v` (`value.getInt()`), so its payload
is modelled as that integer (the conversion to double is exact in the
ranges used). -/
inductive Attr
  | intAttr (ty : MLIRType) (value : Int)
  | floatAttr (ty : MLIRType) (value : Int)
  | otherAttr (id : Nat)
deriving DecidableEq, Repr

/-- Model of `mlir::OpFoldResult`: either "not foldable" (`return {}`), a fold to
a constant attribute, or a fold to the operation's own operand value
(`return getOperand()`). -/
inductive OpFoldResult
  | notFoldable
  | foldedAttr (a : Attr)
  | foldedOperand
deriving DecidableEq, Repr

/-- Model of `GetElementOp::fold` (lines 337-343): if the operand type equals the
result type, fold to the operand itself; otherwise not foldable. -/
def GetElementOp.fold (operandType resultType : MLIRType) : OpFoldResult :=
  if operandType = resultType then
    .foldedOperand
  else
    .notFoldable

/-- Model of `CastOp::fold` (lines 346-365): a known integer-constant operand is
folded to a fresh constant attribute of the cast's result type; anything
else is not foldable.  `castType` is the cast's result type; `operand0`
is the constant attribute bound to the operand, if any. -/
def CastOp.fold (castType : MLIRType) (operand0 : Option Attr) : OpFoldResult :=
  match operand0 with
  | some (.intAttr _ v) =>
    if castType.isSignlessIntOrIndex then
      .foldedAttr (.intAttr castType v)
    else if castType.isSignlessIntOrIndexOrFloat then
      .foldedAttr (.floatAttr castType v)
    else
      .notFoldable
  | _ => .notFoldable

/-! ## Memory spaces and MMA verifiers (lines 616-694)

Modelled from the spec: the `MemorySpace` enumeration itself is declared
outside this translation unit; the spec lists `{None, Global, Shared,
Private, Tensor, ...}`.  Since the C++ value is brace-constructed from a
raw `unsigned` (`getMemorySpaceAsInt()`), codes outside the named
constants are representable; `unknownSp` carries such a code. -/

/-- Logical placement of a buffer. -/
inductive MemorySpace
  | noneSp
  | globalSp
  | sharedSp
  | privateSp
  | tensorSp
  | unknownSp (code : Nat)
deriving DecidableEq, Repr

/-- Model of `LogicalResult` plus the emitted diagnostic: `.ok ()` is `success()`,
`.error msg` is `op.emitError(msg)`. -/
abbrev VerifyResult := Except String Unit

deriving instance DecidableEq for Except

/-- Model of `verify(MMAComputeSyncOp)` (lines 616-624), over the element types of
operands A and B. -/
def verifyMMAComputeSyncOp (opAElemType opBElemType : MLIRType) : VerifyResult :=
  if opAElemType ≠ opBElemType then
    .error "Invalid data types for A and B."
  else
    .ok ()

/-- Model of `verify(MMAFillSyncOp)` (lines 626-635), over the fill value's type
and the destination element type. -/
def verifyMMAFillSyncOp (valueType destElemType : MLIRType) : VerifyResult :=
  if valueType ≠ destElemType then
    .error "value type must match matrix element type"
  else
    .ok ()

/-- Model of `verify(MMALoadSyncOp)` (lines 637-653), over the source memory space
and the operand role. -/
def verifyMMALoadSyncOp (srcMemSpace : MemorySpace) (operand : MMAOperandType) : VerifyResult :=
  if srcMemSpace ≠ .noneSp ∧ srcMemSpace ≠ .sharedSp ∧
      srcMemSpace ≠ .globalSp ∧ srcMemSpace ≠ .privateSp ∧ srcMemSpace ≠ .tensorSp then
    .error "source memorySpace None, Shared, Private, Global or Tensor only allowed"
  else if operand ≠ .A ∧ operand ≠ .B ∧ operand ≠ .Acc then
    .error "only AOp, BOp and COp can be loaded"
  else
    .ok ()

/-- Model of `verify(MMAStoreSyncOp)` (lines 655-666), over the destination memory
space. -/
def verifyMMAStoreSyncOp (dstMemSpace : MemorySpace) : VerifyResult :=
  if dstMemSpace ≠ .noneSp ∧ dstMemSpace ≠ .sharedSp ∧
      dstMemSpace ≠ .globalSp ∧ dstMemSpace ≠ .privateSp ∧ dstMemSpace ≠ .tensorSp then
    .error "destination memorySpace of None, Global, Shared, Private or Tensor only allowed"
  else
    .ok ()

/-- The debug-only `assert`s at lines 690-691 of `verify(GPUBlockCacheOp)`:
when the destination lives in shared memory its shape must match the tile
shape (directly for row-major, transposed otherwise).  In the source this
is an assertion, not a verifier failure. -/
def gpuBlockCacheSharedShapeInvariant (tileShape : List Int) (destMemSpace : MemorySpace)
    (dstShape : List Int) (dstRowMajor : Bool) : Prop :=
  (¬(destMemSpace = .sharedSp ∧ dstRowMajor = true) ∨
    (dstShape.getD 0 0 = tileShape.getD 0 0 ∧ dstShape.getD 1 0 = tileShape.getD 1 0)) ∧
  (¬(destMemSpace = .sharedSp ∧ dstRowMajor = false) ∨
    (dstShape.getD 0 0 = tileShape.getD 1 0 ∧ dstShape.getD 1 0 = tileShape.getD 0 0))

/-- Model of `verify(GPUBlockCacheOp)` (lines 668-694).  `tileShape` is the tile
shape attribute as an integer vector, `dstShape` the destination memref's
shape.  The shared-memory shape match is only asserted (debug builds),
so it does not influence the returned result. -/
def verifyGPUBlockCacheOp (tileShape : List Int) (destMemSpace : MemorySpace)
    (dstShape : List Int) (dstRowMajor : Bool) (workPerThread vecWidth : Int) : VerifyResult :=
  if tileShape.length ≠ 2 then
    .error "Only 2-D tiles are supported."
  else if dstShape.length ≠ 2 then
    .error "Only 2-D destination memrefs are supported."
  else if workPerThread < 1 ∨ vecWidth < 1 ∨ workPerThread % vecWidth ≠ 0 then
    .error "Work per thread (WPT) must be >= 1 and vector width must be >= 1 and WPT must be a multiple of vector width."
  else
    .ok ()

/-! ## Function-like op builders (`ValueFuncOp::build`, lines 121-141) -/

/-- The execution target attribute's payload (declared outside this
translation unit; an opaque tag here). -/
inductive ExecutionTarget
  | CPU
  | GPU
deriving DecidableEq, Repr

/-- Attribute values attached by the function-like builders. -/
inductive AttrVal
  | strAttr (s : String)
  | typeAttr (inputs results : List MLIRType)
  | execTargetAttr (t : ExecutionTarget)
  | unitAttr
deriving DecidableEq, Repr

/-- A block: its argument types and the names of the ops it holds. -/
structure BlockState where
  args : List MLIRType
  ops : List String
deriving DecidableEq, Repr

/-- The relevant parts of `mlir::OperationState` after a builder ran:
the named attributes (in insertion order) and the regions, each a list
of blocks. -/
structure OperationState where
  attributes : List (String × AttrVal)
  regions : List (List BlockState)
deriving DecidableEq, Repr

/-- Model of `ValueFuncOp::build` (lines 121-132): attach the symbol name, the
function-type attribute and the execution-target attribute, add one
region, and push an entry block whose arguments are the input types. -/
def ValueFuncOp.build (name : String) (inputs results : List MLIRType)
    (target : ExecutionTarget) : OperationState :=
  { attributes := [("sym_name", .strAttr name),
                   ("type", .typeAttr inputs results),
                   ("exec_target", .execTargetAttr target)],
    regions := [[{ args := inputs, ops := [] }]] }

/-- Model of `ValueFuncOp::build` with `ExternalFuncTag` (lines 134-141): delegate
to the plain build, add the `"external"` unit attribute, and create an
`accv.ReturnOp` at the end of the first region's front block. -/
def ValueFuncOp.buildExtTag (name : String) (inputs results : List MLIRType)
    (target : ExecutionTarget) : OperationState :=
  let s := ValueFuncOp.build name inputs results target
  { s with
    attributes := s.attributes ++ [("external", .unitAttr)],
    regions :=
      match s.regions with
      | (b :: bs) :: rest => ({ b with ops := b.ops ++ ["accv.return"] } :: bs) :: rest
      | r => r }

/-! ## Reorder builder (`ReorderOp::build`, lines 367-404)

A memref type with an identity-or-strided layout, represented by its
shape, the canonical per-dimension stride coefficients of its strided
linear layout map, and the layout offset.  MLIR affine maps are uniqued
in canonical polynomial form, so two such layouts are structurally
identical exactly when shape, strides and offset coincide. -/

/-- A memref type: shape, element type, layout strides and offset. -/
structure MemRefT where
  shape : List Int
  elemType : MLIRType
  strides : List Int
  offset : Int
deriving DecidableEq, Repr

/-- The scatter loop `affineMapOrder[dimOrder[idx]] = idx` (lines
384-388): for a permutation `dimOrder`, position `j` receives the unique
index at which `dimOrder` holds `j`. -/
def invPermOf (dimOrder : List Nat) : List Nat :=
  (List.range dimOrder.length).map fun j => dimOrder.indexOf j

/-- Model of `ReorderOp::build` (lines 367-404): gather the permuted sizes,
build the permutation affine map from `affineMapOrder`, and compose it
under the source's strided linear layout map
`offset + Σ_j strides[j]·d_j`.  The composed map is
`offset + Σ_j strides[j]·d_(affineMapOrder[j])`; collecting the
coefficient of each result dimension `i` gives the new stride vector. -/
def ReorderOp.build (dimOrder : List Nat) (src : MemRefT) : MemRefT :=
  let permutedSizes := dimOrder.map fun j => src.shape.getD j 0
  let affineMapOrder := invPermOf dimOrder
  let newStrides := (List.range dimOrder.length).map fun i =>
    ∑ j ∈ Finset.range src.strides.length,
      if affineMapOrder.getD j 0 = i then src.strides.getD j 0 else 0
  { src with shape := permutedSizes, strides := newStrides }

/-! ## Theorems -/

/-- Helper: every raw code at or above 14 falls into the `default:`
branch of the shape switch. -/
theorem MMAShape.ofCode_ge_fourteen (c : Nat) : MMAShape.ofCode (c + 14) = none :=
  rfl

/-- C1 (counterexample): the claim says the shape switch enumerates
exactly 13 named configurations; the enumeration is in fact exhaustive,
duplicate-free, and has 14 entries, so "exactly 13" is false. -/
theorem C1_counterexample :
    allMMAShapes.Nodup ∧ (∀ s : MMAShape, s ∈ allMMAShapes) ∧
      allMMAShapes.length ≠ 13 := by
  decide

/-- C1 (amended): the MMA shape-to-descriptor mapping is an exhaustive
case mapping over exactly 14 named configurations; every recognized
shape yields its documented literal `(m, n, k, blocks)` tuple (e.g.
`M32xN8xK16_B1` yields `(32, 8, 16, 1)`); and a raw value outside the
enumerated set is the fatal-assertion path (`none`), not a recoverable
error value. -/
theorem C1_theorem :
    allMMAShapes.Nodup ∧ (∀ s : MMAShape, s ∈ allMMAShapes) ∧
      allMMAShapes.length = 14 ∧
      MMAOp.ofShape .M32xN8xK16_B1 = ⟨32, 8, 16, 1⟩ ∧
      (∀ c : Nat, MMAOp.ofCode c = none ↔ 14 ≤ c) := by
  refine ⟨by decide, by decide, by decide, by decide, fun c => ?_⟩
  constructor
  · intro h
    by_contra hlt
    push_neg at hlt
    interval_cases c <;> simp [MMAOp.ofCode, MMAShape.ofCode] at h
  · intro h
    obtain ⟨d, rfl⟩ := Nat.exists_eq_add_of_le h
    rw [Nat.add_comm]
    simp [MMAOp.ofCode, MMAShape.ofCode_ge_fourteen]

/-- C1 (witness): the raw code 50 lies outside the enumerated set and is
the fatal path. -/
theorem C1_witness : MMAOp.ofCode 50 = none :=
  (C1_theorem.2.2.2.2 50).mpr (by decide)

/-- C2: for every constructed MMA descriptor, if `blocks = 2` or
`m = 32` then `getOffsetMap` is the fixed 32-entry table and
`getOffsetMapSize` is `(16, 2)`; otherwise `getOffsetMap` is the fixed
16-entry table and `getOffsetMapSize` is `(4, 4)`; and in every case the
map's length equals rows times cols of the returned shape. -/
theorem C2_theorem :
    ∀ s : MMAShape,
      (((MMAOp.ofShape s).blocks = 2 ∨ (MMAOp.ofShape s).m = 32) →
        (MMAOp.ofShape s).getOffsetMap = mfmaOffsetTable32 ∧
          (MMAOp.ofShape s).getOffsetMap.length = 32 ∧
          (MMAOp.ofShape s).getOffsetMapSize = (16, 2)) ∧
      (¬((MMAOp.ofShape s).blocks = 2 ∨ (MMAOp.ofShape s).m = 32) →
        (MMAOp.ofShape s).getOffsetMap = mfmaOffsetTable16 ∧
          (MMAOp.ofShape s).getOffsetMap.length = 16 ∧
          (MMAOp.ofShape s).getOffsetMapSize = (4, 4)) ∧
      ((MMAOp.ofShape s).getOffsetMap.length : Int) =
        (MMAOp.ofShape s).getOffsetMapSize.1 * (MMAOp.ofShape s).getOffsetMapSize.2 := by
  decide

/-- C2 (witness): the descriptor of `M64xN64xK1_B2` satisfies the
hypothesis `blocks = 2 ∨ m = 32` and gets the 32-entry table with shape
`(16, 2)`. -/
theorem C2_witness :
    (MMAOp.ofShape .M64xN64xK1_B2).getOffsetMap = mfmaOffsetTable32 ∧
      (MMAOp.ofShape .M64xN64xK1_B2).getOffsetMap.length = 32 ∧
      (MMAOp.ofShape .M64xN64xK1_B2).getOffsetMapSize = (16, 2) :=
  (C2_theorem .M64xN64xK1_B2).1 (by decide)

/-- C9: for every constructed MMA descriptor, `getOperandShape` returns
`(m, k)` for role A, `(k, n)` for role B, `(m, n)` for the accumulator,
and the empty shape (rather than failing) for any other role value. -/
theorem C9_theorem :
    ∀ (s : MMAShape) (c : Nat),
      (MMAOp.ofShape s).getOperandShape .A =
          [(MMAOp.ofShape s).m, (MMAOp.ofShape s).k] ∧
      (MMAOp.ofShape s).getOperandShape .B =
          [(MMAOp.ofShape s).k, (MMAOp.ofShape s).n] ∧
      (MMAOp.ofShape s).getOperandShape .Acc =
          [(MMAOp.ofShape s).m, (MMAOp.ofShape s).n] ∧
      (MMAOp.ofShape s).getOperandShape (.unknown c) = [] :=
  fun _ _ => ⟨rfl, rfl, rfl, rfl⟩

/-- C10: each fixed offset table is a permutation of its full index
range — the 32-entry table holds each of 0..31 exactly once and the
16-entry table each of 0..15 exactly once — so every offset map returned
by `getOffsetMap` assigns each index exactly once. -/
theorem C10_theorem :
    mfmaOffsetTable32.Perm (List.range 32) ∧
      mfmaOffsetTable16.Perm (List.range 16) ∧
      ∀ s : MMAShape,
        (MMAOp.ofShape s).getOffsetMap.Perm
          (List.range (MMAOp.ofShape s).getOffsetMap.length) := by
  decide

/-- The memory spaces accepted by the MMA load and store verifiers. -/
def mmaAllowedMemSpaces : List MemorySpace :=
  [.noneSp, .sharedSp, .globalSp, .privateSp, .tensorSp]

/-- The operand roles accepted by the MMA load verifier. -/
def mmaLoadableRoles : List MMAOperandType :=
  [.A, .B, .Acc]

/-- C6: the MMA load verifier succeeds exactly when the source memory
space is one of {None, Shared, Global, Private, Tensor} and the operand
role is one of {A, B, Accumulator}; the MMA store verifier succeeds
exactly when the destination memory space is in that same set; any other
memory-space value is rejected with the descriptive diagnostic. -/
theorem C6_theorem :
    ∀ (ms : MemorySpace) (role : MMAOperandType),
      (verifyMMALoadSyncOp ms role = .ok () ↔
        ms ∈ mmaAllowedMemSpaces ∧ role ∈ mmaLoadableRoles) ∧
      (verifyMMAStoreSyncOp ms = .ok () ↔ ms ∈ mmaAllowedMemSpaces) ∧
      (ms ∉ mmaAllowedMemSpaces →
        verifyMMALoadSyncOp ms role =
          .error "source memorySpace None, Shared, Private, Global or Tensor only allowed" ∧
        verifyMMAStoreSyncOp ms =
          .error "destination memorySpace of None, Global, Shared, Private or Tensor only allowed") := by
  intro ms role
  cases ms <;> cases role <;>
    simp [verifyMMALoadSyncOp, verifyMMAStoreSyncOp, mmaAllowedMemSpaces, mmaLoadableRoles]

/-- C6 (witness): an out-of-enum memory space (raw code 7) is rejected by
both verifiers with the descriptive diagnostics. -/
theorem C6_witness :
    verifyMMALoadSyncOp (.unknownSp 7) .A =
      .error "source memorySpace None, Shared, Private, Global or Tensor only allowed" ∧
    verifyMMAStoreSyncOp (.unknownSp 7) =
      .error "destination memorySpace of None, Global, Shared, Private or Tensor only allowed" :=
  (C6_theorem (.unknownSp 7) .A).2.2 (by decide)

/-- C7: the BlockCache verifier fails exactly when the tile shape is not
2-D, or the destination is not rank 2, or work-per-thread < 1, or
vector-width < 1, or work-per-thread is not a multiple of vector-width
(so 3/2 is rejected and 4/2 accepted); the shared-memory shape-match
conditions are debug-only assertions and never influence the result. -/
theorem C7_theorem :
    (∀ (tileShape dstShape : List Int) (ms ms2 : MemorySpace) (rm rm2 : Bool)
        (wpt vw : Int),
      (verifyGPUBlockCacheOp tileShape ms dstShape rm wpt vw = .ok () ↔
        tileShape.length = 2 ∧ dstShape.length = 2 ∧
          1 ≤ wpt ∧ 1 ≤ vw ∧ wpt % vw = 0) ∧
      verifyGPUBlockCacheOp tileShape ms dstShape rm wpt vw =
        verifyGPUBlockCacheOp tileShape ms2 dstShape rm2 wpt vw) ∧
    verifyGPUBlockCacheOp [16, 16] .sharedSp [16, 16] true 3 2 ≠ .ok () ∧
    verifyGPUBlockCacheOp [16, 16] .sharedSp [16, 16] true 4 2 = .ok () := by
  refine ⟨fun tileShape dstShape ms ms2 rm rm2 wpt vw => ⟨?_, rfl⟩, by decide, by decide⟩
  unfold verifyGPUBlockCacheOp
  split_ifs with h1 h2 h3
  · simp only [reduceCtorEq, false_iff]
    intro ⟨ha, _, _, _, _⟩; exact h1 ha
  · simp only [reduceCtorEq, false_iff]
    intro ⟨_, hb, _, _, _⟩; exact h2 hb
  · simp only [reduceCtorEq, false_iff]
    intro ⟨_, _, hc, hd, he⟩
    rcases h3 with h | h | h
    · omega
    · omega
    · exact h he
  · push_neg at h1 h2 h3
    simp only [true_iff]
    exact ⟨h1, h2, by omega, by omega, h3.2.2⟩

/-- C7 (witness): a concrete well-formed configuration (2-D tile, rank-2
destination, work-per-thread 4, vector width 2) is accepted. -/
theorem C7_witness :
    verifyGPUBlockCacheOp [16, 16] .noneSp [8, 8] false 4 2 = .ok () :=
  (C7_theorem.1 [16, 16] [8, 8] .noneSp .noneSp false false 4 2).1.mpr (by decide)

/-- C8: the MMA compute verifier succeeds exactly when the element types
of operands A and B are equal, and rejects differing element types with
the descriptive diagnostic. -/
theorem C8_theorem :
    ∀ a b : MLIRType,
      (verifyMMAComputeSyncOp a b = .ok () ↔ a = b) ∧
      (a ≠ b →
        verifyMMAComputeSyncOp a b = .error "Invalid data types for A and B.") := by
  intro a b
  by_cases h : a = b <;> simp [verifyMMAComputeSyncOp, h]

/-- C8 (witness): two distinct element types are rejected with the
diagnostic, and `verifyMMAComputeSyncOp` accepts equal types. -/
theorem C8_witness :
    verifyMMAComputeSyncOp (.float 16) (.float 32) =
      .error "Invalid data types for A and B." :=
  (C8_theorem (.float 16) (.float 32)).2 (by decide)

/-- C4 (counterexample): casting the integer constant 5 to its own
integer type does not fold to the original operand — the fold result is
a fresh integer constant attribute, so the claim's "returns the original
operand itself" fails at this input. -/
theorem C4_counterexample :
    CastOp.fold (.int 32) (some (.intAttr (.int 32) 5)) ≠ .foldedOperand ∧
    CastOp.fold (.int 32) (some (.intAttr (.int 32) 5)) =
      .foldedAttr (.intAttr (.int 32) 5) := by
  decide

/-- C4 (amended): casting a known integer constant to a floating-point
type folds to the float constant of the same value; casting to the same
integer type folds to an integer constant attribute of the same value —
not to the original operand itself (it is `GetElementOp`'s same-type
fold that returns its own operand); and for every non-integer-constant
operand, `CastOp::fold` returns "not foldable". -/
theorem C4_theorem :
    ∀ (w : Nat) (v : Int) (ty aty : MLIRType) (a : Option Attr),
      CastOp.fold (.float w) (some (.intAttr aty v)) =
        .foldedAttr (.floatAttr (.float w) v) ∧
      CastOp.fold (.int w) (some (.intAttr (.int w) v)) =
        .foldedAttr (.intAttr (.int w) v) ∧
      GetElementOp.fold ty ty = .foldedOperand ∧
      ((∀ (ty2 : MLIRType) (v2 : Int), a ≠ some (.intAttr ty2 v2)) →
        CastOp.fold ty a = .notFoldable) := by
  intro w v ty aty a
  refine ⟨rfl, rfl, by simp [GetElementOp.fold], fun h => ?_⟩
  match a with
  | none => rfl
  | some (.intAttr t2 u2) => exact absurd rfl (h t2 u2)
  | some (.floatAttr t2 u2) => rfl
  | some (.otherAttr i) => rfl

/-- C4 (witness): the concrete folds — integer 5 cast to `f32` gives the
float constant 5.0, the same-type cast gives the integer constant 5, a
same-type `GetElementOp` folds to its operand, and a float-constant
operand is not foldable. -/
theorem C4_witness :
    CastOp.fold (.float 32) (some (.intAttr (.int 32) 5)) =
      .foldedAttr (.floatAttr (.float 32) 5) ∧
    CastOp.fold (.int 32) (some (.intAttr (.int 32) 5)) =
      .foldedAttr (.intAttr (.int 32) 5) ∧
    GetElementOp.fold (.int 32) (.int 32) = .foldedOperand ∧
    CastOp.fold (.int 32) (some (.floatAttr (.float 32) 5)) = .notFoldable := by
  have h := C4_theorem 32 5 (.int 32) (.int 32) (some (.floatAttr (.float 32) 5))
  exact ⟨h.1, h.2.1, h.2.2.1, h.2.2.2 (by intro ty2 v2; simp)⟩

/-- C5 (counterexample): building with the external tag does not
suppress body creation — the built op's single region holds an entry
block carrying the declared argument type, not an empty region. -/
theorem C5_counterexample :
    (ValueFuncOp.buildExtTag "f" [.int 32] [] .CPU).regions ≠ [[]] ∧
    (ValueFuncOp.buildExtTag "f" [.int 32] [] .CPU).regions =
      [[{ args := [.int 32], ops := ["accv.return"] }]] := by
  decide

/-- C5 (amended): building a function-like operation with the external
tag attaches the symbol name, function-type and execution-target
attributes plus an `external` unit attribute, builds the same entry
block (with the function's argument types) as the plain builder rather
than suppressing it, and emits a trivial terminator into that block so
the operation is structurally valid. -/
theorem C5_theorem :
    ∀ (name : String) (inputs results : List MLIRType) (target : ExecutionTarget),
      (ValueFuncOp.buildExtTag name inputs results target).attributes =
        [("sym_name", .strAttr name),
         ("type", .typeAttr inputs results),
         ("exec_target", .execTargetAttr target),
         ("external", .unitAttr)] ∧
      (ValueFuncOp.buildExtTag name inputs results target).regions =
        [[{ args := inputs, ops := ["accv.return"] }]] :=
  fun _ _ _ _ => ⟨rfl, rfl⟩

/-! ## Reorder round-trip -/

theorem invPermOf_length (P : List Nat) : (invPermOf P).length = P.length := by
  simp [invPermOf]

theorem invPermOf_getD (P : List Nat) (j : Nat) (hj : j < P.length) :
    (invPermOf P).getD j 0 = P.indexOf j := by
  rw [List.getD_eq_getElem _ _ (by simpa [invPermOf_length] using hj)]
  simp [invPermOf]

/-- For a permutation order, `invPermOf` is again a permutation of the
dimension range. -/
theorem invPermOf_perm (P : List Nat) (n : Nat) (hlen : P.length = n)
    (hnodup : P.Nodup) (hmem : ∀ x : Nat, x ∈ P ↔ x < n) :
    (invPermOf P).Perm (List.range n) := by
  have hnd : (invPermOf P).Nodup := by
    rw [invPermOf]
    refine List.Nodup.map_on ?_ (List.nodup_range _)
    intro x hx y hy hxy
    have hxP : x ∈ P := (hmem x).2 (by simpa [hlen] using List.mem_range.1 hx)
    have hyP : y ∈ P := (hmem y).2 (by simpa [hlen] using List.mem_range.1 hy)
    exact (List.indexOf_inj hxP hyP).1 hxy
  have hsub : invPermOf P ⊆ List.range n := by
    intro x hx
    rw [invPermOf] at hx
    obtain ⟨j, hj, rfl⟩ := List.mem_map.1 hx
    have hjP : j ∈ P := (hmem j).2 (by simpa [hlen] using List.mem_range.1 hj)
    rw [List.mem_range, ← hlen]
    exact List.indexOf_lt_length.2 hjP
  refine (List.subperm_of_subset hnd hsub).perm_of_length_le ?_
  rw [List.length_range, invPermOf_length, hlen]

/-- For a permutation order, the stride coefficients of the composed
layout map collapse to the gathered strides: the built type carries
shape and strides both permuted by the order. -/
theorem ReorderOp.build_eq_map (src : MemRefT) (P : List Nat)
    (hstr : src.strides.length = src.shape.length)
    (hP : P.Perm (List.range src.shape.length)) :
    ReorderOp.build P src =
      { src with
        shape := P.map fun j => src.shape.getD j 0,
        strides := P.map fun j => src.strides.getD j 0 } := by
  have hlen : P.length = src.shape.length := by simpa using hP.length_eq
  have hnodup : P.Nodup := hP.nodup_iff.mpr (List.nodup_range _)
  have hmem : ∀ x : Nat, x ∈ P ↔ x < src.shape.length := fun x => by
    rw [hP.mem_iff, List.mem_range]
  have hstrides :
      ((List.range P.length).map fun i =>
        ∑ j ∈ Finset.range src.strides.length,
          if (invPermOf P).getD j 0 = i then src.strides.getD j 0 else 0) =
        P.map fun j => src.strides.getD j 0 := by
    apply List.ext_getElem
    · simp [hlen]
    · intro i h1 h2
      have hi : i < P.length := by simpa using h2
      have hPi_mem : P[i] ∈ P := List.getElem_mem _
      have hPi_lt : P[i] < src.shape.length := (hmem _).1 hPi_mem
      simp only [List.getElem_map, List.getElem_range]
      rw [Finset.sum_congr rfl (fun j hj => by
        rw [invPermOf_getD P j
          (by rw [hlen, ← hstr]; exact Finset.mem_range.1 hj)])]
      rw [Finset.sum_eq_single_of_mem P[i]
        (Finset.mem_range.2 (by rw [hstr]; exact hPi_lt)) ?_]
      · rw [if_pos (List.indexOf_getElem hnodup i hi)]
      · intro b hb hne
        rw [if_neg]
        intro hbi
        have hbP : b ∈ P :=
          (hmem b).2 (by rw [← hstr]; exact Finset.mem_range.1 hb)
        have hgb := List.getElem_indexOf (List.indexOf_lt_length.2 hbP)
        apply hne
        rw [← hgb]
        congr 1
  simp only [ReorderOp.build]
  rw [hstrides]

/-- Gathering by the order and then by its inverse restores a list of
matching length. -/
theorem map_getD_invPerm (xs : List Int) (P : List Nat) (n : Nat)
    (hx : xs.length = n) (hlen : P.length = n) (hnodup : P.Nodup)
    (hmem : ∀ x : Nat, x ∈ P ↔ x < n) :
    (invPermOf P).map (fun j => (P.map fun j2 => xs.getD j2 0).getD j 0) = xs := by
  apply List.ext_getElem
  · simp [invPermOf_length, hlen, hx]
  · intro p h1 h2
    have hp : p < n := by rw [← hx]; exact h2
    have hpP : p ∈ P := (hmem p).2 hp
    have hpIdx : P.indexOf p < P.length := List.indexOf_lt_length.2 hpP
    simp only [invPermOf, List.getElem_map, List.getElem_range]
    rw [List.getD_eq_getElem _ _ (by simpa using hpIdx)]
    simp only [List.getElem_map]
    rw [List.getElem_indexOf hpIdx]
    exact List.getD_eq_getElem _ _ h2

/-- C3: for every buffer type with computable strides and offset and
every permutation order `P` over its rank, building a Reorder with `P`
and then a second Reorder with the inverse order restores a buffer type
structurally identical (same shape, same strides, same offset, same
element type) to the original. -/
theorem C3_theorem (src : MemRefT) (P : List Nat)
    (hstr : src.strides.length = src.shape.length)
    (hP : P.Perm (List.range src.shape.length)) :
    ReorderOp.build (invPermOf P) (ReorderOp.build P src) = src := by
  have hlen : P.length = src.shape.length := by simpa using hP.length_eq
  have hnodup : P.Nodup := hP.nodup_iff.mpr (List.nodup_range _)
  have hmem : ∀ x : Nat, x ∈ P ↔ x < src.shape.length := fun x => by
    rw [hP.mem_iff, List.mem_range]
  rw [ReorderOp.build_eq_map src P hstr hP]
  have hshape1 : (P.map fun j => src.shape.getD j 0).length = src.shape.length := by
    simp [hlen]
  have hstr1 : (P.map fun j => src.strides.getD j 0).length = src.shape.length := by
    simp [hlen]
  rw [ReorderOp.build_eq_map _ (invPermOf P)
    (by simp only [hstr1, hshape1])
    (by rw [hshape1]; exact invPermOf_perm P _ hlen hnodup hmem)]
  have h1 := map_getD_invPerm src.shape P src.shape.length rfl hlen hnodup hmem
  have h2 := map_getD_invPerm src.strides P src.shape.length hstr hlen hnodup hmem
  simp only []
  rw [h1, h2]

/-- C3 (witness): a concrete rank-3 buffer type with strides `[12, 4,
1]`, offset 5, reordered by `[2, 0, 1]` and back by the inverse order,
is restored exactly. -/
theorem C3_witness :
    ReorderOp.build (invPermOf [2, 0, 1])
        (ReorderOp.build [2, 0, 1]
          ({ shape := [2, 3, 4], elemType := .float 32,
             strides := [12, 4, 1], offset := 5 } : MemRefT)) =
      { shape := [2, 3, 4], elemType := .float 32,
        strides := [12, 4, 1], offset := 5 } :=
  C3_theorem _ [2, 0, 1] (by decide) (by decide)

end AcceraValue
